import Mathlib

/-!
Verification of the Elasticsearch service layer (src/index.ts).

The development shallowly embeds the query-compilation, result-projection,
cursor-codec and term-tracking logic of `ElasticsearchService`.  JavaScript
semantics that the code relies on are modelled explicitly:

* truthiness guards (`if (options.x)`): an empty string and the number 0 are
  falsy, a missing (`undefined`) value is falsy;
* `Array.prototype.map` with index-based cursor collection;
* `String.prototype.split` with a non-empty string separator;
* `Buffer.from(s, 'base64')`, which never throws and silently ignores
  characters outside the base64 alphabet;
* `JSON.stringify` / `JSON.parse` restricted to the shapes that flow through
  the cursor codec: flat arrays of integers and strings whose characters are
  printable ASCII needing no escaping (engine sort keys are numbers and plain
  id strings); floating point numbers are modelled as integers;
* the `try/catch` bracket of each public operation, whose handler re-throws
  every caught error as a `KobpError.fromServer(badGateway, ...)`.

External collaborators (the engine client itself, `Deserialize`, the entity
lookup, `md5`) are treated as opaque: engine calls are a function parameter
producing a typed response, hits carry their raw source as an opaque string,
and the md5-based document id keeps its pre-hash source string.
-/

/-! ## JavaScript string helpers -/

/-- ASCII lower-casing of one character, as `String.prototype.toLowerCase`
and case-insensitive regexes treat ASCII letters. -/
def charLower (c : Char) : Char :=
  if 'A' ≤ c ∧ c ≤ 'Z' then Char.ofNat (c.toNat + 32) else c

/-- ASCII lower-casing of a character list. -/
def toLowerCL (cs : List Char) : List Char := cs.map charLower

/-- ASCII lower-casing of a string (models `s.toLowerCase()`). -/
def jsToLower (s : String) : String := ⟨toLowerCL s.data⟩

/-- Boolean prefix test on character lists. -/
def isPrefixOfCL : List Char → List Char → Bool
  | [], _ => true
  | _ :: _, [] => false
  | a :: as, b :: bs => a == b && isPrefixOfCL as bs

/-- Boolean substring test: does the second list occur inside the first
argument order is (pattern, haystack). -/
def containsSubAux (pat : List Char) : List Char → Bool
  | [] => isPrefixOfCL pat []
  | h :: t => isPrefixOfCL pat (h :: t) || containsSubAux pat t

/-- Case-insensitive containment test, modelling a `/pat/i` regex test on a
literal pattern (e.g. `/price/i.test(options.sortBy)`). -/
def containsCI (s pat : String) : Bool :=
  containsSubAux (toLowerCL pat.data) (toLowerCL s.data)

/-- Fuel-driven splitter on a non-empty separator; the fuel is always at
least the length of the input, so the fallback first branch is never hit. -/
def splitOnFuel (sep : List Char) : Nat → List Char → List Char → List (List Char)
  | 0, rest, acc => [acc.reverse ++ rest]
  | fuel + 1, cs, acc =>
    match cs with
    | [] => [acc.reverse]
    | c :: cs2 =>
      if isPrefixOfCL sep (c :: cs2) then
        acc.reverse :: splitOnFuel sep fuel (List.drop sep.length (c :: cs2)) []
      else splitOnFuel sep fuel cs2 (c :: acc)

/-- Models `s.split(sep)` of JavaScript for a non-empty string separator. -/
def jsSplit (s sep : String) : List String :=
  (splitOnFuel sep.data (s.data.length + 1) s.data []).map (fun l => ⟨l⟩)

/-- JavaScript truthiness of an optional string: missing and `""` are falsy. -/
def truthyStr : Option String → Bool
  | none => false
  | some s => !s.isEmpty

/-- JavaScript truthiness of an optional number: missing and `0` are falsy. -/
def truthyNum : Option Int → Bool
  | none => false
  | some n => n != 0

/-- JavaScript truthiness of `xs && xs.length` on an optional array. -/
def truthyList {α : Type} : Option (List α) → Bool
  | none => false
  | some l => !l.isEmpty

/-! ## JSON subset for cursor payloads

The pagination cursor serializes the literal sort-key values of a hit: a
flat JSON array whose elements are numbers or strings.  `JPrim` is that
element type. -/

/-- A JSON primitive inside a sort-key tuple: an integer or a string. -/
inductive JPrim
  | jnum (n : Int)
  | jstr (s : String)
deriving DecidableEq, Repr

/-- Decimal digits of a natural number, most significant first; structural
recursion over a fuel that only needs to exceed the number itself. -/
def printNatAux : Nat → Nat → List Char
  | 0, _ => []
  | fuel + 1, n =>
    if n < 10 then [Char.ofNat (48 + n)]
    else printNatAux fuel (n / 10) ++ [Char.ofNat (48 + n % 10)]

/-- Decimal representation of a natural number. -/
def printNat (n : Nat) : List Char := printNatAux (n + 1) n

/-- Decimal representation of an integer, as `JSON.stringify` prints an
integral JavaScript number. -/
def printInt : Int → List Char
  | .ofNat n => printNat n
  | .negSucc n => '-' :: printNat (n + 1)

/-- Characters of the JSON serialization of one tuple element. -/
def printPrimChars : JPrim → List Char
  | .jnum n => printInt n
  | .jstr s => '"' :: s.data ++ ['"']

/-- Characters of the serialized item list (everything after `[`). -/
def printItemsChars : List JPrim → List Char
  | [] => [']']
  | [p] => printPrimChars p ++ [']']
  | p :: rest => printPrimChars p ++ ',' :: printItemsChars rest

/-- Characters of `JSON.stringify(tuple)`. -/
def printTupleChars (t : List JPrim) : List Char := '[' :: printItemsChars t

/-- Models `JSON.stringify(tuple)` for a flat sort-key tuple. -/
def printTuple (t : List JPrim) : String := ⟨printTupleChars t⟩

/-- Numeric value of an ASCII digit character, if it is one. -/
def digitVal (c : Char) : Option Nat :=
  if '0' ≤ c ∧ c ≤ '9' then some (c.toNat - 48) else none

/-- Consume a maximal run of digits, folding them onto an accumulator. -/
def parseNatAux : List Char → Nat → Nat × List Char
  | [], acc => (acc, [])
  | c :: cs, acc =>
    match digitVal c with
    | some d => parseNatAux cs (acc * 10 + d)
    | none => (acc, c :: cs)

/-- Parse an optionally negated decimal integer from the head of the input. -/
def parseIntPfx : List Char → Option (Int × List Char)
  | [] => none
  | c :: cs =>
    if c = '-' then
      match cs with
      | [] => none
      | d :: _ =>
        if (digitVal d).isSome then
          some (-(Int.ofNat (parseNatAux cs 0).1), (parseNatAux cs 0).2)
        else none
    else
      if (digitVal c).isSome then
        some (Int.ofNat (parseNatAux (c :: cs) 0).1, (parseNatAux (c :: cs) 0).2)
      else none

/-- Scan a string body up to the closing quote; escape sequences are outside
the modelled subset and make the parse fail. -/
def parseStrAux : List Char → Option (List Char × List Char)
  | [] => none
  | c :: cs =>
    if c = '"' then some ([], cs)
    else if c = '\\' then none
    else (parseStrAux cs).map (fun p => (c :: p.1, p.2))

/-- Parse one tuple element from the head of the input. -/
def parsePrim : List Char → Option (JPrim × List Char)
  | [] => none
  | c :: cs =>
    if c = '"' then (parseStrAux cs).map (fun p => (JPrim.jstr ⟨p.1⟩, p.2))
    else (parseIntPfx (c :: cs)).map (fun p => (JPrim.jnum p.1, p.2))

/-- Parse a non-empty comma-separated item list followed by `]` and then end
of input; the fuel is at least the input length, so it never runs out. -/
def parseItemsAux : Nat → List Char → Option (List JPrim)
  | 0, _ => none
  | fuel + 1, cs =>
    match parsePrim cs with
    | none => none
    | some (p, rest) =>
      match rest with
      | ']' :: rest2 => if rest2 = [] then some [p] else none
      | ',' :: rest2 => (parseItemsAux fuel rest2).map (fun l => p :: l)
      | _ => none

/-- Models `JSON.parse` on the cursor payload subset: a flat array of
integers and unescaped strings, with nothing after the closing bracket. -/
def parseTuple (s : String) : Option (List JPrim) :=
  match s.data with
  | '[' :: cs => if cs = [']'] then some [] else parseItemsAux (cs.length + 1) cs
  | _ => none

/-- A character a cursor string may contain without needing JSON escaping:
printable ASCII other than the quote and the backslash. -/
def wfChar (c : Char) : Bool :=
  32 ≤ c.toNat && c.toNat < 128 && c ≠ '"' && c ≠ '\\'

/-- Well-formedness of one tuple element for the modelled JSON subset. -/
def wfPrim : JPrim → Bool
  | .jnum _ => true
  | .jstr s => s.data.all wfChar

/-- Well-formedness of a sort-key tuple. -/
def wfTuple (t : List JPrim) : Bool := t.all wfPrim

/-! ## Base64 (Node `Buffer` flavour) -/

/-- Character of one 6-bit group in the standard base64 alphabet. -/
def b64Char (n : Nat) : Char :=
  if n < 26 then Char.ofNat (65 + n)
  else if n < 52 then Char.ofNat (97 + (n - 26))
  else if n < 62 then Char.ofNat (48 + (n - 52))
  else if n = 62 then '+'
  else '/'

/-- Inverse of the base64 alphabet; `none` for every other character,
including the padding `=`. -/
def b64Index (c : Char) : Option Nat :=
  if 'A' ≤ c ∧ c ≤ 'Z' then some (c.toNat - 65)
  else if 'a' ≤ c ∧ c ≤ 'z' then some (c.toNat - 97 + 26)
  else if '0' ≤ c ∧ c ≤ '9' then some (c.toNat - 48 + 52)
  else if c = '+' then some 62
  else if c = '/' then some 63
  else none

/-- Standard padded base64 encoding of a byte list, as
`Buffer.prototype.toString('base64')` produces. -/
def b64EncodeBytes : List Nat → List Char
  | [] => []
  | [a] => [b64Char (a / 4), b64Char (a % 4 * 16), '=', '=']
  | [a, b] => [b64Char (a / 4), b64Char (a % 4 * 16 + b / 16), b64Char (b % 16 * 4), '=']
  | a :: b :: c :: rest =>
    b64Char (a / 4) :: b64Char (a % 4 * 16 + b / 16) ::
      b64Char (b % 16 * 4 + c / 64) :: b64Char (c % 64) :: b64EncodeBytes rest

/-- Reassemble bytes from 6-bit groups; a trailing group of fewer than four
sextets yields the bytes Node recovers from an unpadded tail (a lone sextet
is dropped). -/
def b64DecodeSextets : List Nat → List Nat
  | s1 :: s2 :: s3 :: s4 :: rest =>
    (s1 * 4 + s2 / 16) :: (s2 % 16 * 16 + s3 / 4) :: (s3 % 4 * 64 + s4) ::
      b64DecodeSextets rest
  | [s1, s2, s3] => [s1 * 4 + s2 / 16, s2 % 16 * 16 + s3 / 4]
  | [s1, s2] => [s1 * 4 + s2 / 16]
  | _ => []

/-- Models `Buffer.from(token, 'base64')`: characters outside the alphabet
(padding included) are silently ignored and decoding never fails. -/
def b64DecodeForgiving (s : String) : List Nat :=
  b64DecodeSextets (s.data.filterMap b64Index)

/-- Bytes of an ASCII string (the cursor payload subset is ASCII, where the
UTF-8 encoding is the identity on code points). -/
def strToBytes (s : String) : List Nat := s.data.map Char.toNat

/-- String decoded from a byte list (ASCII reading). -/
def bytesToStr (bs : List Nat) : String := ⟨bs.map Char.ofNat⟩

/-- Cursor encoding of a sort-key tuple:
`Buffer.from(JSON.stringify(sort), 'utf8').toString('base64')`. -/
def cursorEncode (t : List JPrim) : String := ⟨b64EncodeBytes (strToBytes (printTuple t))⟩

/-- Cursor decoding of a token:
`JSON.parse(Buffer.from(token, 'base64').toString('utf8'))`, `none` when the
inner `JSON.parse` would throw. -/
def cursorDecode (tok : String) : Option (List JPrim) :=
  parseTuple (bytesToStr (b64DecodeForgiving tok))

/-! ## Error model -/

/-- Surfaced error classes of the `kobp` layer: `KobpError.fromUserInput`
carries a client error code and message, `KobpError.fromServer` carries the
bad-gateway message and an optional normalized detail. -/
inductive KErr
  | client (code : String) (msg : String)
  | server (msg : String) (detail : Option String)
deriving DecidableEq, Repr

/-- Whether a surfaced error is the server/bad-gateway class. -/
def KErr.isServer : KErr → Bool
  | .server _ _ => true
  | .client _ _ => false

/-- An error thrown inside the `try` block of a public operation: either a
`KobpError` constructed by this layer or a plain JavaScript error (engine
failure, `JSON.parse` SyntaxError, TypeError on a missing field). -/
inductive Thrown
  | kobp (e : KErr)
  | js (msg : String)
deriving DecidableEq, Repr

/-- The `error.message` seen by `_normalizeESErrorMessage` for errors without
an engine `meta.body.error` node. -/
def thrownMessage : Thrown → String
  | .kobp (.client _ m) => m
  | .kobp (.server m _) => m
  | .js m => m

/-- The `catch` bracket shared by `listProducts` and `listBrands`:
`_throwElasticSearchError` re-throws every caught error as
`KobpError.fromServer(badGateway, 'ElasticSearch encountered an error',
normalizedMessage)`. -/
def catchAll {α : Type} : Except Thrown α → Except KErr α
  | .ok a => .ok a
  | .error e => .error (.server "ElasticSearch encountered an error" (some (thrownMessage e)))

deriving instance DecidableEq for Except

/-! ## Data model of `ListProductsOptions` -/

/-- Caller scope (`ScopeOption`): the fields of it that `src/index.ts` reads
are the brand pin, the category pin and the mall pin (optional strings). -/
structure ScopeOption where
  brandId : Option String := none
  category : Option String := none
  mallId : Option String := none
deriving DecidableEq, Repr

/-- The `ListProductsOptions` interface (scope fields flattened in, exactly
as the TypeScript interface extends `ScopeOption`). -/
structure ListProductsOptions extends ScopeOption where
  keyword : Option String := none
  nextToken : Option String := none
  size : Nat
  categories : Option (List String) := none
  minPrice : Option Int := none
  maxPrice : Option Int := none
  brands : Option (List String) := none
  sortBy : Option String := none
  skus : Option (List String) := none
  color : Option (List String) := none
deriving DecidableEq, Repr

/-! ## Compiled query shape -/

/-- A clause nested inside an inner `bool.should` wrapper: the code only
ever nests plain `match` clauses and nested-path `match` clauses there (the
SKU block and the colour block). -/
inductive SubClause
  | matchF (field : String) (value : String)
  | nestedMatch (path : String) (field : String) (value : String)
deriving DecidableEq, Repr

/-- One boolean sub-clause of the composite query, mirroring the object
fragments the code pushes into `queryShould` / `queryMust` /
`queryBoolFilters`.  Range clauses keep their optional bound value: a bound
the caller did not give stays `none` (the serializer drops `undefined`). -/
inductive Clause
  | termF (field : String) (value : String)
  | termsF (field : String) (values : List String)
  | matchF (field : String) (value : String)
  | matchPhrasePfx (field : String) (value : String)
  | nestedMatch (path : String) (field : String) (value : String)
  | rangeGte (field : String) (value : Option Int)
  | rangeLte (field : String) (value : Option Int)
  | boolShould (clauses : List SubClause) (minimumShouldMatch : Nat)
deriving DecidableEq, Repr

/-- The assembled `bool` node: each section is spread in only when
non-empty, and `minimum_should_match: 1` accompanies a non-empty `should`. -/
structure BoolNode where
  should : List Clause
  minimumShouldMatch : Option Nat
  must : List Clause
  filter : List Clause
deriving DecidableEq, Repr

/-- The query node: the assembled `bool` node, or the
`query_string: { query: '*' }` fallback when every section is empty. -/
inductive QueryNode
  | queryString (q : String)
  | boolQuery (node : BoolNode)
deriving DecidableEq, Repr

/-- A sort directive entry (`{ field: direction }`). -/
inductive SortDir
  | asc
  | desc
deriving DecidableEq, Repr

/-- One entry of the sort directive list. -/
structure SortSpec where
  field : String
  dir : SortDir
deriving DecidableEq, Repr

/-- A `terms` aggregation request (field, ordered by count descending). -/
structure TermsAgg where
  field : String
deriving DecidableEq, Repr

/-- The aggregation request map: brand / category / colour facets are
conditional, the price min/max aggregations are always present. -/
structure Aggs where
  brands : Option TermsAgg
  categorySlugs : Option TermsAgg
  colorSwatch : Option TermsAgg
  priceMaxField : String
  priceMinField : String
deriving DecidableEq, Repr

/-- One completion-suggester request (prefix, field, size 5). -/
structure CompletionReq where
  pfx : String
  field : String
  completionSize : Nat
deriving DecidableEq, Repr

/-- The bilingual suggestion request registered when a keyword is given. -/
structure ProductSuggestReq where
  suggestionEn : CompletionReq
  suggestionTh : CompletionReq
deriving DecidableEq, Repr

/-- The compiled search request body for the products index. -/
structure SearchRequest where
  size : Nat
  query : QueryNode
  suggest : Option ProductSuggestReq
  sort : List SortSpec
  aggs : Aggs
  searchAfter : Option (List JPrim)
deriving DecidableEq, Repr

/-! ## Query compiler -/

/-- The `queryBoolFilters` list, in push order: mall pin, brand pin,
category pin, brand set. -/
def buildFilters (o : ListProductsOptions) : List Clause :=
  (if truthyStr o.mallId then
    [Clause.nestedMatch "byStore" "byStore.mallId" (o.mallId.getD "")] else [])
  ++ (if truthyStr o.brandId then
    [Clause.termF "annotatedBrand" (o.brandId.getD "")] else [])
  ++ (if truthyStr o.category then
    [Clause.termF "categorySlugs" (o.category.getD "")] else [])
  ++ (if truthyList o.brands then
    [Clause.termsF "annotatedBrand" (o.brands.getD [])] else [])

/-- The two nested SKU sub-clauses pushed per SKU (top-level store child and
nested store children, SKU lower-cased). -/
def skuClauses (skus : List String) : List SubClause :=
  skus.flatMap (fun item =>
    [SubClause.nestedMatch "byStore" "byStore.sku" (jsToLower item),
     SubClause.nestedMatch "byStore.children" "byStore.children.sku" (jsToLower item)])

/-- The `queryMust` list, in push order: SKU block, colour block, price
range pair.  The price guard is the JavaScript truthiness test
`options.minPrice || options.maxPrice`, under which a bound of `0` counts
as absent; when the guard passes, both range clauses are pushed, each
carrying its (possibly absent) bound. -/
def buildMust (o : ListProductsOptions) : List Clause :=
  (if truthyList o.skus then
    [Clause.boolShould (skuClauses (o.skus.getD [])) 1] else [])
  ++ (if truthyList o.color then
    [Clause.boolShould ((o.color.getD []).map (SubClause.matchF "colorSwatchs")) 1] else [])
  ++ (if truthyNum o.minPrice || truthyNum o.maxPrice then
    [Clause.rangeGte "actualMinPrice" o.minPrice,
     Clause.rangeLte "actualMinPrice" o.maxPrice] else [])

/-- The `queryShould` list, in push order: the two keyword phrase-prefix
clauses, then one match clause per requested category slug. -/
def buildShould (o : ListProductsOptions) : List Clause :=
  (if truthyStr o.keyword then
    [Clause.matchPhrasePfx "title.th" (o.keyword.getD ""),
     Clause.matchPhrasePfx "title.en" (o.keyword.getD "")] else [])
  ++ (if truthyList o.categories then
    (o.categories.getD []).map (Clause.matchF "categorySlugs") else [])

/-- The suggestion request: registered only when a keyword is given. -/
def buildSuggest (o : ListProductsOptions) : Option ProductSuggestReq :=
  if truthyStr o.keyword then
    some { suggestionEn := ⟨o.keyword.getD "", "titleSuggest.en", 5⟩,
           suggestionTh := ⟨o.keyword.getD "", "titleSuggest.th", 5⟩ }
  else none

/-- Assemble the query node: sections are included only when non-empty, and
an entirely empty boolean node falls back to `query_string: '*'`. -/
def buildQueryNode (o : ListProductsOptions) : QueryNode :=
  let s := buildShould o
  let m := buildMust o
  let f := buildFilters o
  if s.isEmpty && m.isEmpty && f.isEmpty then .queryString "*"
  else .boolQuery { should := s,
                    minimumShouldMatch := if s.isEmpty then none else some 1,
                    must := m,
                    filter := f }

/-- The aggregation request: the brand facet is suppressed by a truthy
single brand pin, the category facet by a truthy category pin, and the
colour facet is requested only when the caller asked for the `colorSwatch`
slug; the price min/max aggregations are unconditional. -/
def buildAggs (o : ListProductsOptions) (filterableAttributeSlugs : List String) : Aggs :=
  { brands := if truthyStr o.brandId then none else some ⟨"annotatedBrand"⟩,
    categorySlugs := if truthyStr o.category then none else some ⟨"categorySlugs"⟩,
    colorSwatch := if filterableAttributeSlugs.contains "colorSwatch" then
        some ⟨"colorSlugs"⟩ else none,
    priceMaxField := "priceMax",
    priceMinField := "priceMin" }

/-- The sort alias table, applied in source order; an unmatched token throws
`KobpError.fromUserInput(badRequest, 'Unknown sort by option: ...')` naming
the original token. -/
def mapSortField (s : String) : Except Thrown String :=
  if containsCI s "createdAt" then .ok "createdAt"
  else if containsCI s "price" then .ok "actualMinPrice"
  else if containsCI s "discountPercent" then .ok "discountPercent"
  else if containsCI s "id" then .ok "id"
  else .error (.kobp (.client "badRequest" ("Unknown sort by option: " ++ s)))

/-- The sort directive list: relevance first, the optional aliased explicit
sort (descending when the token starts with `-`), and the `id` ascending
tiebreak last. -/
def buildSortNode (o : ListProductsOptions) : Except Thrown (List SortSpec) :=
  let base : List SortSpec := [⟨"_score", .desc⟩]
  match o.sortBy with
  | none => .ok (base ++ [⟨"id", .asc⟩])
  | some s =>
    if s.isEmpty then .ok (base ++ [⟨"id", .asc⟩])
    else
      let dir : SortDir := if s.data.head? = some '-' then .desc else .asc
      match mapSortField s with
      | .error e => .error e
      | .ok f => .ok (base ++ [⟨f, dir⟩] ++ [⟨"id", .asc⟩])

/-- Decode the caller cursor into a `search_after` tuple; a failing inner
`JSON.parse` throws a SyntaxError that the operation bracket will catch. -/
def decodeSearchAfter : Option String → Except Thrown (Option (List JPrim))
  | none => .ok none
  | some tok =>
    if tok.isEmpty then .ok none
    else
      match cursorDecode tok with
      | some t => .ok (some t)
      | none => .error (.js "Unexpected token in JSON")

/-- The query-compilation phase of `listProducts`, up to the engine call:
everything the request body carries.  The sort directive is computed before
the cursor is decoded, matching source order. -/
def compileListProducts (o : ListProductsOptions) (filterableAttributeSlugs : List String) :
    Except Thrown SearchRequest :=
  match buildSortNode o with
  | .error e => .error e
  | .ok sortNode =>
    match decodeSearchAfter o.nextToken with
    | .error e => .error e
    | .ok searchAfter =>
      .ok { size := o.size,
            query := buildQueryNode o,
            suggest := buildSuggest o,
            sort := sortNode,
            aggs := buildAggs o filterableAttributeSlugs,
            searchAfter := searchAfter }

/-- The `filter` section of the compiled query node. -/
def queryFilterSection : QueryNode → List Clause
  | .queryString _ => []
  | .boolQuery b => b.filter

/-- The `must` section of the compiled query node. -/
def queryMustSection : QueryNode → List Clause
  | .queryString _ => []
  | .boolQuery b => b.must

/-! ## Engine response shape and result projection -/

/-- One raw hit: its `_source` (kept opaque; deserialization to
`ProductModel` is an external collaborator) and its optional `sort` tuple. -/
structure Hit where
  source : String
  sort : Option (List JPrim) := none
deriving DecidableEq, Repr

/-- One terms-aggregation bucket. -/
structure Bucket where
  key : String
  docCount : Nat
deriving DecidableEq, Repr

/-- The aggregation section of a response; the facet bucket lists are read
through optional chaining (`aggregrations?.brands?.buckets || []`), the
price values directly (`aggregrations.priceMax.value`). -/
structure AggResult where
  brands : Option (List Bucket) := none
  categorySlugs : Option (List Bucket) := none
  colorSwatch : Option (List Bucket) := none
  priceMin : Int := 0
  priceMax : Int := 0
deriving DecidableEq, Repr

/-- One completion option carrying the bilingual title of its `_source`. -/
structure SuggestOption where
  titleEn : String
  titleTh : String
deriving DecidableEq, Repr

/-- The `suggest` section: each language channel is a list of per-prefix
entries, each entry a list of completion options. -/
structure SuggestResult where
  suggestionEn : List (List SuggestOption)
  suggestionTh : List (List SuggestOption)
deriving DecidableEq, Repr

/-- The engine response fields `listProducts` reads: hits, the optional
`hits.total` node (value and relation read defensively), aggregations and
suggestions. -/
structure SearchResponse where
  hits : List Hit := []
  totalValue : Option Int := none
  totalRelation : Option String := none
  aggregations : Option AggResult := none
  suggest : Option SuggestResult := none
deriving DecidableEq, Repr

/-- One projected colour-swatch facet entry; `none` in a field models the
`undefined` a JavaScript out-of-bounds array index yields. -/
structure ColorSwatchEntry where
  code : Option String
  labelEn : Option String
  labelTh : Option String
deriving DecidableEq, Repr

/-- The projected filterable attributes. -/
structure FilterableAttribute where
  brands : List (String × Nat)
  categories : List (String × Nat)
  priceMin : Int
  priceMax : Int
  colorSwatch : List ColorSwatchEntry
deriving DecidableEq, Repr

/-- The typed `listProducts` result. -/
structure ListResult where
  items : List String
  nextToken : Option String
  totalValue : Int
  isEstimate : Bool
  filterableAttributes : FilterableAttribute
  suggestionProduct : List String
deriving DecidableEq, Repr

/-- Models `a || b` on an optional number with a fallback: a missing or
zero (falsy) value yields the fallback. -/
def jsOrInt (v : Option Int) (fallback : Nat) : Int :=
  match v with
  | some x => if x ≠ 0 then x else (fallback : Int)
  | none => (fallback : Int)

/-- The cursor computed inside the hit-mapping loop: on the last hit of a
page whose length equals the requested size, a missing `sort` throws
`KobpError.fromServer(badGateway, 'Sort is missing from query result!')`,
otherwise the cursor is the base64 of the JSON of that sort tuple. -/
def computeNextToken (size : Nat) (hits : List Hit) : Except Thrown (Option String) :=
  match hits.getLast? with
  | none => .ok none
  | some lastHit =>
    if hits.length = size then
      match lastHit.sort with
      | none => .error (.kobp (.server "Sort is missing from query result!" none))
      | some t => .ok (some (cursorEncode t))
    else .ok none

/-- Projection of one colour-swatch bucket key: split on `__` and read the
three parts by index, absent parts staying `undefined`. -/
def projectColorBucket (key : String) : ColorSwatchEntry :=
  let colorLabel := jsSplit key "__"
  { code := colorLabel.get? 0,
    labelEn := colorLabel.get? 1,
    labelTh := colorLabel.get? 2 }

/-- Projection of the suggestion block: the English channel's first entry
decides (non-empty options win), else the Thai channel's first entry; a
channel without a first entry makes the unguarded `[0].options` access
throw a TypeError. -/
def projectSuggestions (sg : SuggestResult) : Except Thrown (List String) :=
  match sg.suggestionEn.head? with
  | none => .error (.js "Cannot read properties of undefined")
  | some en0 =>
    if en0.length ≠ 0 then .ok (en0.map (fun s => s.titleEn))
    else
      match sg.suggestionTh.head? with
      | none => .error (.js "Cannot read properties of undefined")
      | some th0 => .ok (th0.map (fun s => s.titleTh))

/-- The filterable attributes projected from an optional aggregation
section, with the hard-coded defaults used when the section is absent. -/
def projectAggs (a : Option AggResult) : FilterableAttribute :=
  match a with
  | none =>
    { brands := [], categories := [], priceMin := 0, priceMax := 999999,
      colorSwatch := [] }
  | some ag =>
    { brands := (ag.brands.getD []).map (fun b => (b.key, b.docCount)),
      categories := (ag.categorySlugs.getD []).map (fun b => (b.key, b.docCount)),
      priceMin := ag.priceMin,
      priceMax := ag.priceMax,
      colorSwatch := (ag.colorSwatch.getD []).map (fun b => projectColorBucket b.key) }

/-- The suggestion list from an optional suggestion block: an absent block
yields an empty list without touching the channels. -/
def projectSuggestBlock (s : Option SuggestResult) : Except Thrown (List String) :=
  match s with
  | none => .ok []
  | some sg => projectSuggestions sg

/-- The result-projection phase of `listProducts`: cursor (computed inside
the hit-mapping loop, hence first), items, defensive totals, filterable
attributes with their defaults, and suggestions. -/
def projectListProducts (o : ListProductsOptions) (r : SearchResponse) :
    Except Thrown ListResult :=
  match computeNextToken o.size r.hits with
  | .error e => .error e
  | .ok nextToken =>
    let items := r.hits.map (fun h => h.source)
    match projectSuggestBlock r.suggest with
    | .error e => .error e
    | .ok suggestionProduct =>
      .ok { items := items,
            nextToken := nextToken,
            totalValue := jsOrInt r.totalValue items.length,
            isEstimate := r.totalRelation ≠ some "eq",
            filterableAttributes := projectAggs r.aggregations,
            suggestionProduct := suggestionProduct }

/-- The public `listProducts` operation: compile the request, call the
engine (an opaque collaborator passed as a function), project the response;
the whole body sits in the try/catch bracket that re-classifies every
thrown error as a bad-gateway server error. -/
def listProducts (o : ListProductsOptions) (filterableAttributeSlugs : List String)
    (engine : SearchRequest → Except String SearchResponse) : Except KErr ListResult :=
  catchAll
    (match compileListProducts o filterableAttributeSlugs with
     | .error e => .error e
     | .ok req =>
       match engine req with
       | .error msg => .error (.js msg)
       | .ok r => projectListProducts o r)

/-! ## `listBrands` -/

/-- The brands query node: keyword phrase-prefix on `title`, else
`match_all`. -/
inductive BrandsQuery
  | matchPhrasePfx (field : String) (value : String)
  | matchAll
deriving DecidableEq, Repr

/-- The compiled search request body for the brands index; the page size is
the literal `24`, and a decoded-but-empty `search_after` tuple is dropped by
the `isEmpty` spread guard. -/
structure BrandsRequest where
  size : Nat
  query : BrandsQuery
  suggest : Option CompletionReq
  sort : List SortSpec
  searchAfter : Option (List JPrim)
deriving DecidableEq, Repr

/-- The query-compilation phase of `listBrands`. -/
def compileListBrands (o : ListProductsOptions) : Except Thrown BrandsRequest :=
  match decodeSearchAfter o.nextToken with
  | .error e => .error e
  | .ok searchAfter =>
    .ok { size := 24,
          query := if truthyStr o.keyword then
              .matchPhrasePfx "title" (o.keyword.getD "")
            else .matchAll,
          suggest := if truthyStr o.keyword then
              some ⟨o.keyword.getD "", "titleSuggest", 5⟩
            else none,
          sort := [⟨"_score", .desc⟩, ⟨"id", .asc⟩],
          searchAfter := searchAfter.bind (fun t => if t.isEmpty then none else some t) }

/-- The `suggest` section of a brands response: one channel whose options
carry the `_source.id`. -/
structure BrandsSuggestResult where
  suggestion : List (List String)
deriving DecidableEq, Repr

/-- The engine response fields `listBrands` reads. -/
structure BrandsResponse where
  hits : List Hit := []
  totalValue : Option Int := none
  totalRelation : Option String := none
  suggest : Option BrandsSuggestResult := none
deriving DecidableEq, Repr

/-- The typed `listBrands` result; `suggestionIds` is the id list handed to
the external entity lookup that enriches it into brand entities. -/
structure BrandsResult where
  items : List String
  nextToken : Option String
  totalValue : Int
  isEstimate : Bool
  suggestionIds : List String
deriving DecidableEq, Repr

/-- The brand suggestion ids from an optional suggestion block: the single
channel's first entry is read through an unguarded `[0].options` access. -/
def projectBrandsSuggestBlock (s : Option BrandsSuggestResult) : Except Thrown (List String) :=
  match s with
  | none => .ok []
  | some sg =>
    match sg.suggestion.head? with
    | none => .error (.js "Cannot read properties of undefined")
    | some s0 => .ok s0

/-- The result-projection phase of `listBrands`: the cursor condition
compares the hit count against the caller-supplied `options.size`, not
against the fixed engine page size of 24. -/
def projectListBrands (o : ListProductsOptions) (r : BrandsResponse) :
    Except Thrown BrandsResult :=
  match computeNextToken o.size r.hits with
  | .error e => .error e
  | .ok nextToken =>
    let items := r.hits.map (fun h => h.source)
    match projectBrandsSuggestBlock r.suggest with
    | .error e => .error e
    | .ok suggestionIds =>
      .ok { items := items,
            nextToken := nextToken,
            totalValue := jsOrInt r.totalValue items.length,
            isEstimate := r.totalRelation ≠ some "eq",
            suggestionIds := suggestionIds }

/-- The public `listBrands` operation under the same catch-all bracket. -/
def listBrands (o : ListProductsOptions)
    (engine : BrandsRequest → Except String BrandsResponse) : Except KErr BrandsResult :=
  catchAll
    (match compileListBrands o with
     | .error e => .error e
     | .ok req =>
       match engine req with
       | .error msg => .error (.js msg)
       | .ok r => projectListBrands o r)

/-! ## Term tracker -/

/-- Scope resolution: `global` unless a brand restriction is present, with
the empty segment filtered out of the join. -/
def fromScopeToDomain (scope : ScopeOption) : String :=
  let dg : String := if truthyStr scope.brandId then "brand" else "global"
  let ds : String := if truthyStr scope.brandId then scope.brandId.getD "" else ""
  String.intercalate ":" (([dg, ds]).filter (fun s => !s.isEmpty))

/-- A scripted update request against a terms index.  The document id is
the md5 of `idSource` (hashing is an external collaborator, so the pre-hash
string is kept); `retryOnConflict` is the `retry_on_conflict` parameter. -/
structure UpdateRequest where
  index : String
  idSource : String
  scriptSource : String
  upsertQ : String
  upsertDomain : String
  upsertCounter : Int
  retryOnConflict : Nat
deriving DecidableEq, Repr

/-- The update request `trackUserSearchedKeywords` issues: increment script,
lower-cased upsert document, a conflict-retry budget of 3. -/
def buildTrackRequest (scope : ScopeOption) (typed : String) : UpdateRequest :=
  let domain := fromScopeToDomain scope
  { index := "queryterms",
    idSource := jsToLower (domain ++ "/" ++ typed),
    scriptSource := "ctx._source.hit+=1",
    upsertQ := jsToLower typed,
    upsertDomain := domain,
    upsertCounter := 1,
    retryOnConflict := 3 }

/-- `trackUserSearchedKeywords`: the engine outcome is swallowed by
`.catch(_logElasticSearchError)`, so the call always resolves. -/
def trackUserSearchedKeywords (scope : ScopeOption) (typed : String)
    (engine : UpdateRequest → Except String Unit) : Except KErr Unit :=
  match engine (buildTrackRequest scope typed) with
  | .ok _ => .ok ()
  | .error _ => .ok ()

/-- The update request `updateDomainBoostedKeywords` issues: set-score
script with the score as upsert payload, same retry budget of 3. -/
def buildBoostRequest (scope : ScopeOption) (keyword : String) (score : Int) : UpdateRequest :=
  let domain := fromScopeToDomain scope
  { index := "boostedterms",
    idSource := jsToLower (domain ++ "/" ++ keyword),
    scriptSource := "ctx._source.score = params.score;",
    upsertQ := jsToLower keyword,
    upsertDomain := domain,
    upsertCounter := score,
    retryOnConflict := 3 }

/-- `updateDomainBoostedKeywords`: the engine outcome flows through
`.catch(_throwElasticSearchError)`, so a failure surfaces as the
bad-gateway server error. -/
def updateDomainBoostedKeywords (scope : ScopeOption) (keyword : String) (score : Int)
    (engine : UpdateRequest → Except String Unit) : Except KErr Unit :=
  match engine (buildBoostRequest scope keyword score) with
  | .ok _ => .ok ()
  | .error msg => .error (.server "ElasticSearch encountered an error" (some msg))

/-! ## Character-level facts (finite, settled by `decide`) -/

theorem b64Index_b64Char : ∀ n, n < 64 → b64Index (b64Char n) = some n := by decide

theorem b64Index_pad : b64Index '=' = none := by decide

theorem digit_toNat : ∀ d, d < 10 → (Char.ofNat (48 + d)).toNat = 48 + d := by decide

theorem digitVal_digitChar : ∀ d, d < 10 → digitVal (Char.ofNat (48 + d)) = some d := by decide

theorem digitChar_ne : ∀ d, d < 10 →
    Char.ofNat (48 + d) ≠ '-' ∧ Char.ofNat (48 + d) ≠ '"' ∧ Char.ofNat (48 + d) ≠ ']' := by decide

theorem digitVal_structural :
    digitVal ']' = none ∧ digitVal ',' = none ∧ digitVal '"' = none := by decide

/-! ## Base64 round-trip -/

theorem b64_roundtrip : ∀ (bs : List Nat), (∀ x ∈ bs, x < 256) →
    b64DecodeSextets ((b64EncodeBytes bs).filterMap b64Index) = bs
  | [], _ => by simp [b64EncodeBytes, b64DecodeSextets]
  | [a], h => by
    have ha : a < 256 := h a (by simp)
    have h1 : b64Index (b64Char (a / 4)) = some (a / 4) := b64Index_b64Char _ (by omega)
    have h2 : b64Index (b64Char (a % 4 * 16)) = some (a % 4 * 16) := b64Index_b64Char _ (by omega)
    simp only [b64EncodeBytes, List.filterMap_cons, h1, h2, b64Index_pad, List.filterMap_nil,
      b64DecodeSextets]
    have : a / 4 * 4 + a % 4 * 16 / 16 = a := by omega
    rw [this]
  | [a, b], h => by
    have ha : a < 256 := h a (by simp)
    have hb : b < 256 := h b (by simp)
    have h1 : b64Index (b64Char (a / 4)) = some (a / 4) := b64Index_b64Char _ (by omega)
    have h2 : b64Index (b64Char (a % 4 * 16 + b / 16)) = some (a % 4 * 16 + b / 16) :=
      b64Index_b64Char _ (by omega)
    have h3 : b64Index (b64Char (b % 16 * 4)) = some (b % 16 * 4) := b64Index_b64Char _ (by omega)
    simp only [b64EncodeBytes, List.filterMap_cons, h1, h2, h3, b64Index_pad, List.filterMap_nil,
      b64DecodeSextets]
    have e1 : a / 4 * 4 + (a % 4 * 16 + b / 16) / 16 = a := by omega
    have e2 : (a % 4 * 16 + b / 16) % 16 * 16 + b % 16 * 4 / 4 = b := by omega
    rw [e1, e2]
  | a :: b :: c :: rest, h => by
    have ha : a < 256 := h a (by simp)
    have hb : b < 256 := h b (by simp)
    have hc : c < 256 := h c (by simp)
    have ih := b64_roundtrip rest (fun x hx => h x (by simp [hx]))
    have h1 : b64Index (b64Char (a / 4)) = some (a / 4) := b64Index_b64Char _ (by omega)
    have h2 : b64Index (b64Char (a % 4 * 16 + b / 16)) = some (a % 4 * 16 + b / 16) :=
      b64Index_b64Char _ (by omega)
    have h3 : b64Index (b64Char (b % 16 * 4 + c / 64)) = some (b % 16 * 4 + c / 64) :=
      b64Index_b64Char _ (by omega)
    have h4 : b64Index (b64Char (c % 64)) = some (c % 64) := b64Index_b64Char _ (by omega)
    simp only [b64EncodeBytes, List.filterMap_cons, h1, h2, h3, h4, b64DecodeSextets]
    have e1 : a / 4 * 4 + (a % 4 * 16 + b / 16) / 16 = a := by omega
    have e2 : (a % 4 * 16 + b / 16) % 16 * 16 + (b % 16 * 4 + c / 64) / 4 = b := by omega
    have e3 : (b % 16 * 4 + c / 64) % 4 * 64 + c % 64 = c := by omega
    rw [e1, e2, e3, ih]

theorem bytesToStr_strToBytes (s : String) : bytesToStr (strToBytes s) = s := by
  cases s with
  | mk data =>
    simp [bytesToStr, strToBytes, List.map_map, Function.comp_def, Char.ofNat_toNat]

/-! ## Byte bounds of the serialized cursor payload -/

theorem printNatAux_lt256 : ∀ fuel n c, c ∈ printNatAux fuel n → c.toNat < 256 := by
  intro fuel
  induction fuel with
  | zero => intro n c hc; simp [printNatAux] at hc
  | succ f ih =>
    intro n c hc
    by_cases hn : n < 10
    · simp [printNatAux, hn] at hc
      subst hc
      have := digit_toNat n hn
      omega
    · simp [printNatAux, hn] at hc
      rcases hc with hc | hc
      · exact ih _ _ hc
      · subst hc
        have := digit_toNat (n % 10) (by omega)
        omega

theorem printPrimChars_lt256 (p : JPrim) (hp : wfPrim p) :
    ∀ c ∈ printPrimChars p, c.toNat < 256 := by
  intro c hc
  cases p with
  | jnum n =>
    cases n with
    | ofNat m =>
      simp only [printPrimChars, printInt, printNat] at hc
      exact printNatAux_lt256 _ _ _ hc
    | negSucc m =>
      simp only [printPrimChars, printInt, List.mem_cons] at hc
      rcases hc with hc | hc
      · subst hc; decide
      · exact printNatAux_lt256 _ _ _ hc
  | jstr s =>
    simp only [printPrimChars, List.mem_cons, List.mem_append, List.mem_singleton] at hc
    rcases hc with (hc | hc) | (hc | hc)
    · subst hc; decide
    · have := List.all_eq_true.mp hp c hc
      simp [wfChar] at this
      omega
    · subst hc; decide
    · simp at hc

theorem printItemsChars_lt256 : ∀ (t : List JPrim), wfTuple t →
    ∀ c ∈ printItemsChars t, c.toNat < 256
  | [], _ => by intro c hc; simp [printItemsChars] at hc; subst hc; decide
  | [p], h => by
    intro c hc
    simp only [printItemsChars, List.mem_append, List.mem_singleton] at hc
    rcases hc with hc | hc
    · exact printPrimChars_lt256 p (by simpa [wfTuple] using h) c hc
    · subst hc; decide
  | p :: q :: t, h => by
    intro c hc
    have hp : wfPrim p := by simp [wfTuple] at h; exact h.1
    have ht : wfTuple (q :: t) := by simp [wfTuple] at h ⊢; exact ⟨h.2.1, h.2.2⟩
    simp only [printItemsChars, List.mem_append, List.mem_cons] at hc
    rcases hc with hc | hc | hc
    · exact printPrimChars_lt256 p hp c hc
    · subst hc; decide
    · exact printItemsChars_lt256 (q :: t) ht c hc

theorem printTupleChars_lt256 (t : List JPrim) (h : wfTuple t) :
    ∀ c ∈ printTupleChars t, c.toNat < 256 := by
  intro c hc
  simp only [printTupleChars, List.mem_cons] at hc
  rcases hc with hc | hc
  · subst hc; decide
  · exact printItemsChars_lt256 t h c hc

/-! ## Parser correctness on printer output -/

theorem parseNatAux_stop (cs : List Char) (acc : Nat)
    (h : ∀ c, cs.head? = some c → digitVal c = none) : parseNatAux cs acc = (acc, cs) := by
  cases cs with
  | nil => simp [parseNatAux]
  | cons c cs2 => simp [parseNatAux, h c rfl]

theorem parseNatAux_printNatAux : ∀ (fuel n : Nat), n < fuel → ∀ (acc : Nat) (rest : List Char),
    parseNatAux (printNatAux fuel n ++ rest) acc =
      parseNatAux rest (acc * 10 ^ (printNatAux fuel n).length + n) := by
  intro fuel
  induction fuel with
  | zero => intro n hn; omega
  | succ f ih =>
    intro n hn acc rest
    by_cases h10 : n < 10
    · simp only [printNatAux, if_pos h10, List.singleton_append, parseNatAux,
        digitVal_digitChar n h10, List.length_singleton, pow_one]
    · have hdiv : n / 10 < f := by omega
      have hmod : n % 10 < 10 := by omega
      simp only [printNatAux, if_neg h10, List.append_assoc, List.singleton_append]
      rw [ih (n / 10) hdiv acc (Char.ofNat (48 + n % 10) :: rest)]
      simp only [parseNatAux, digitVal_digitChar (n % 10) hmod]
      rw [List.length_append, List.length_singleton]
      congr 1
      generalize (printNatAux f (n / 10)).length = L
      rw [pow_succ, ← Nat.mul_assoc]
      generalize acc * 10 ^ L = y
      omega

theorem parseNatAux_printNat (n : Nat) (acc : Nat) (rest : List Char)
    (h : ∀ c, rest.head? = some c → digitVal c = none) :
    parseNatAux (printNat n ++ rest) acc = (acc * 10 ^ (printNat n).length + n, rest) := by
  rw [printNat, parseNatAux_printNatAux (n + 1) n (by omega) acc rest,
    parseNatAux_stop rest _ h]

theorem printNatAux_head : ∀ (fuel n : Nat), n < fuel →
    ∃ d cs, printNatAux fuel n = Char.ofNat (48 + d) :: cs ∧ d < 10 := by
  intro fuel
  induction fuel with
  | zero => intro n hn; omega
  | succ f ih =>
    intro n hn
    by_cases h10 : n < 10
    · exact ⟨n, [], by simp [printNatAux, h10], h10⟩
    · obtain ⟨d, cs, hd, hlt⟩ := ih (n / 10) (by omega)
      exact ⟨d, cs ++ [Char.ofNat (48 + n % 10)], by simp [printNatAux, h10, hd], hlt⟩

theorem parseIntPfx_print (i : Int) (rest : List Char)
    (h : ∀ c, rest.head? = some c → digitVal c = none) :
    parseIntPfx (printInt i ++ rest) = some (i, rest) := by
  cases i with
  | ofNat n =>
    obtain ⟨d, cs, hd, hlt⟩ := printNatAux_head (n + 1) n (Nat.lt_succ_self n)
    have hpn : printNat n = Char.ofNat (48 + d) :: cs := by rw [printNat, hd]
    have hne := (digitChar_ne d hlt).1
    have hdv := digitVal_digitChar d hlt
    have hnat := parseNatAux_printNat n 0 rest h
    simp only [printInt, hpn, List.cons_append] at hnat ⊢
    simp [parseIntPfx, hne, hdv, hnat]
  | negSucc n =>
    obtain ⟨d, cs, hd, hlt⟩ := printNatAux_head (n + 2) (n + 1) (Nat.lt_succ_self (n + 1))
    have hpn : printNat (n + 1) = Char.ofNat (48 + d) :: cs := by rw [printNat, hd]
    have hdv := digitVal_digitChar d hlt
    have hnat := parseNatAux_printNat (n + 1) 0 rest h
    simp only [printInt, hpn, List.cons_append] at hnat ⊢
    simp [parseIntPfx, hdv, hnat, Int.negSucc_eq]

theorem parseStrAux_print : ∀ (l : List Char), l.all wfChar = true → ∀ (rest : List Char),
    parseStrAux (l ++ '"' :: rest) = some (l, rest)
  | [], _, rest => by simp [parseStrAux]
  | c :: l, h, rest => by
    have hw : wfChar c = true ∧ l.all wfChar = true := by simpa using h
    have hcc : c ≠ '"' ∧ c ≠ '\\' := by
      have := hw.1
      simp [wfChar] at this
      tauto
    simp [parseStrAux, hcc.1, hcc.2, parseStrAux_print l hw.2 rest]

theorem parsePrim_print (p : JPrim) (rest : List Char) (hp : wfPrim p = true)
    (hrest : ∀ c, rest.head? = some c → digitVal c = none) :
    parsePrim (printPrimChars p ++ rest) = some (p, rest) := by
  cases p with
  | jstr s =>
    have hshape : (('"' :: s.data ++ ['"']) ++ rest) = '"' :: (s.data ++ '"' :: rest) := by simp
    rw [printPrimChars, hshape]
    simp [parsePrim, parseStrAux_print s.data hp rest]
  | jnum i =>
    have hint := parseIntPfx_print i rest hrest
    obtain ⟨c, cs, hcons, hne⟩ : ∃ c cs, printInt i = c :: cs ∧ c ≠ '"' := by
      cases i with
      | ofNat n =>
        obtain ⟨d, ds, hd, hlt⟩ := printNatAux_head (n + 1) n (Nat.lt_succ_self n)
        exact ⟨Char.ofNat (48 + d), ds, by rw [show printInt (Int.ofNat n) = printNat n from rfl,
          printNat, hd], (digitChar_ne d hlt).2.1⟩
      | negSucc n => exact ⟨'-', printNat (n + 1), rfl, by decide⟩
    rw [hcons] at hint
    simp only [List.cons_append] at hint
    rw [show printPrimChars (JPrim.jnum i) = printInt i from rfl, hcons]
    simp only [List.cons_append]
    simp [parsePrim, hne, hint]

theorem parseItemsAux_print : ∀ (t : List JPrim) (fuel : Nat), t ≠ [] → wfTuple t = true →
    t.length ≤ fuel → parseItemsAux fuel (printItemsChars t) = some t
  | [], _, hne, _, _ => absurd rfl hne
  | [p], fuel, _, hw, hf => by
    obtain ⟨f, rfl⟩ : ∃ f, fuel = f + 1 := ⟨fuel - 1, by simp at hf; omega⟩
    have hp : wfPrim p = true := by simpa [wfTuple] using hw
    have hprim := parsePrim_print p [']'] hp
      (by intro c hc; simp at hc; subst hc; exact digitVal_structural.1)
    simp only [printItemsChars, parseItemsAux, hprim]
    simp
  | p :: q :: t, fuel, _, hw, hf => by
    obtain ⟨f, rfl⟩ : ∃ f, fuel = f + 1 := ⟨fuel - 1, by simp at hf; omega⟩
    have hp : wfPrim p = true := by
      simp [wfTuple] at hw
      exact hw.1
    have hqt : wfTuple (q :: t) = true := by
      simp [wfTuple] at hw ⊢
      exact ⟨hw.2.1, hw.2.2⟩
    have hprim := parsePrim_print p (',' :: printItemsChars (q :: t)) hp
      (by intro c hc; simp at hc; subst hc; exact digitVal_structural.2.1)
    have ih := parseItemsAux_print (q :: t) f (by simp) hqt
      (by simp at hf ⊢; omega)
    simp only [printItemsChars, parseItemsAux, hprim, ih]
    simp

theorem printItemsChars_length : ∀ (t : List JPrim), t.length ≤ (printItemsChars t).length
  | [] => by simp [printItemsChars]
  | [p] => by simp [printItemsChars]
  | p :: q :: t => by
    have := printItemsChars_length (q :: t)
    simp [printItemsChars] at this ⊢
    omega

theorem printPrimChars_head_ne_rb (p : JPrim) :
    ∃ c cs, printPrimChars p = c :: cs ∧ c ≠ ']' := by
  cases p with
  | jstr s => exact ⟨'"', s.data ++ ['"'], rfl, by decide⟩
  | jnum i =>
    cases i with
    | ofNat n =>
      obtain ⟨d, ds, hd, hlt⟩ := printNatAux_head (n + 1) n (Nat.lt_succ_self n)
      exact ⟨Char.ofNat (48 + d), ds, by rw [show printPrimChars (JPrim.jnum (Int.ofNat n)) =
        printNat n from rfl, printNat, hd], (digitChar_ne d hlt).2.2⟩
    | negSucc n => exact ⟨'-', printNat (n + 1), rfl, by decide⟩

theorem parseTuple_print (t : List JPrim) (h : wfTuple t = true) :
    parseTuple (printTuple t) = some t := by
  cases t with
  | nil => simp [parseTuple, printTuple, printTupleChars, printItemsChars]
  | cons p t2 =>
    obtain ⟨c, cs, hc, hne⟩ := printPrimChars_head_ne_rb p
    obtain ⟨X, hX⟩ : ∃ X, printItemsChars (p :: t2) = printPrimChars p ++ X := by
      cases t2 with
      | nil => exact ⟨[']'], rfl⟩
      | cons q t3 => exact ⟨',' :: printItemsChars (q :: t3), rfl⟩
    have hnl : printItemsChars (p :: t2) ≠ [']'] := by
      rw [hX, hc]
      intro hcontra
      simp [List.cons_append] at hcontra
      exact hne hcontra.1
    have hlen := printItemsChars_length (p :: t2)
    have hitems := parseItemsAux_print (p :: t2) ((printItemsChars (p :: t2)).length + 1)
      (by simp) h (by omega)
    simpa [parseTuple, printTuple, printTupleChars, hnl] using hitems

/-! ## Cursor codec round-trip -/

theorem cursor_roundtrip (t : List JPrim) (h : wfTuple t = true) :
    cursorDecode (cursorEncode t) = some t := by
  have hb : ∀ x ∈ strToBytes (printTuple t), x < 256 := by
    intro x hx
    simp only [strToBytes, List.mem_map] at hx
    obtain ⟨c, hc, rfl⟩ := hx
    exact printTupleChars_lt256 t h c hc
  unfold cursorDecode cursorEncode b64DecodeForgiving
  rw [show (⟨b64EncodeBytes (strToBytes (printTuple t))⟩ : String).data =
    b64EncodeBytes (strToBytes (printTuple t)) from rfl]
  rw [b64_roundtrip _ hb, bytesToStr_strToBytes, parseTuple_print t h]

/-! ## Structure of a successfully compiled request -/

theorem compileListProducts_ok_fields (o : ListProductsOptions) (slugs : List String)
    (req : SearchRequest) (h : compileListProducts o slugs = .ok req) :
    req.size = o.size ∧ req.query = buildQueryNode o ∧ req.suggest = buildSuggest o ∧
      req.aggs = buildAggs o slugs := by
  unfold compileListProducts at h
  cases hs : buildSortNode o with
  | error e => rw [hs] at h; simp at h
  | ok sortNode =>
    rw [hs] at h
    cases hc : decodeSearchAfter o.nextToken with
    | error e => rw [hc] at h; simp at h
    | ok sa =>
      rw [hc] at h
      simp only [Except.ok.injEq] at h
      subst h
      exact ⟨rfl, rfl, rfl, rfl⟩

theorem mem_filters_query (o : ListProductsOptions) (x : Clause)
    (h : x ∈ buildFilters o) : x ∈ queryFilterSection (buildQueryNode o) := by
  have hf : (buildFilters o).isEmpty = false := by
    cases hfe : buildFilters o with
    | nil => rw [hfe] at h; simp at h
    | cons a l => simp
  simp [buildQueryNode, queryFilterSection, hf, h]

theorem mem_must_query (o : ListProductsOptions) (x : Clause)
    (h : x ∈ buildMust o) : x ∈ queryMustSection (buildQueryNode o) := by
  have hm : (buildMust o).isEmpty = false := by
    cases hme : buildMust o with
    | nil => rw [hme] at h; simp at h
    | cons a l => simp
  simp [buildQueryNode, queryMustSection, hm, h]

theorem truthyStr_of_ne (s : String) (h : s ≠ "") : truthyStr (some s) = true := by
  have he : s.isEmpty = false := by
    cases hb : s.isEmpty with
    | false => rfl
    | true => exact absurd ((String.isEmpty_iff s).mp hb) h
  simp [truthyStr, he]

theorem brandPin_mem_filters (o : ListProductsOptions) (b : String)
    (h1 : o.brandId = some b) (h2 : b ≠ "") :
    Clause.termF "annotatedBrand" b ∈ buildFilters o := by
  have ht : truthyStr o.brandId = true := by
    rw [h1]
    exact truthyStr_of_ne b h2
  unfold buildFilters
  rw [ht]
  have hb : o.brandId.getD "" = b := by simp [h1]
  simp [hb]

theorem categoryPin_mem_filters (o : ListProductsOptions) (c : String)
    (h1 : o.category = some c) (h2 : c ≠ "") :
    Clause.termF "categorySlugs" c ∈ buildFilters o := by
  have ht : truthyStr o.category = true := by
    rw [h1]
    exact truthyStr_of_ne c h2
  unfold buildFilters
  rw [ht]
  have hc : o.category.getD "" = c := by simp [h1]
  simp [hc]

theorem brandSet_mem_filters (o : ListProductsOptions) (bs : List String)
    (h1 : o.brands = some bs) (h2 : bs ≠ []) :
    Clause.termsF "annotatedBrand" bs ∈ buildFilters o := by
  have ht : truthyList o.brands = true := by
    simp [truthyList, h1, List.isEmpty_iff, h2]
  unfold buildFilters
  rw [ht]
  have hb : o.brands.getD [] = bs := by simp [h1]
  simp [hb]

/-- C1: a truthy single brand pin puts an exact `term` filter on
`annotatedBrand` into the compiled filter section and suppresses the brand
facet aggregation; a non-empty brand set (with no pin) puts a `terms`
filter there while the brand facet stays requested; a truthy category pin
likewise adds an exact `term` filter on `categorySlugs` and suppresses the
category facet. -/
theorem claim_C1_pin_vs_set_facets (o : ListProductsOptions) (slugs : List String)
    (req : SearchRequest) (hok : compileListProducts o slugs = .ok req) :
    (∀ b, o.brandId = some b → b ≠ "" →
      Clause.termF "annotatedBrand" b ∈ queryFilterSection req.query ∧
        req.aggs.brands = none) ∧
    (∀ bs, truthyStr o.brandId = false → o.brands = some bs → bs ≠ [] →
      Clause.termsF "annotatedBrand" bs ∈ queryFilterSection req.query ∧
        req.aggs.brands = some ⟨"annotatedBrand"⟩) ∧
    (∀ c, o.category = some c → c ≠ "" →
      Clause.termF "categorySlugs" c ∈ queryFilterSection req.query ∧
        req.aggs.categorySlugs = none) := by
  obtain ⟨-, hq, -, ha⟩ := compileListProducts_ok_fields o slugs req hok
  refine ⟨?_, ?_, ?_⟩
  · intro b h1 h2
    constructor
    · rw [hq]
      exact mem_filters_query o _ (brandPin_mem_filters o b h1 h2)
    · rw [ha]
      have ht : truthyStr o.brandId = true := by
        rw [h1]
        exact truthyStr_of_ne b h2
      simp [buildAggs, ht]
  · intro bs hpin h1 h2
    constructor
    · rw [hq]
      exact mem_filters_query o _ (brandSet_mem_filters o bs h1 h2)
    · rw [ha]
      simp [buildAggs, hpin]
  · intro c h1 h2
    constructor
    · rw [hq]
      exact mem_filters_query o _ (categoryPin_mem_filters o c h1 h2)
    · rw [ha]
      have ht : truthyStr o.category = true := by
        rw [h1]
        exact truthyStr_of_ne c h2
      simp [buildAggs, ht]

/-- Concrete options with a single pinned brand, for the C1 witness. -/
def oC1 : ListProductsOptions := { size := 1, brandId := some "nike" }

/-- The request `oC1` compiles to. -/
def reqC1 : SearchRequest :=
  { size := 1,
    query := .boolQuery
      { should := [], minimumShouldMatch := none, must := [],
        filter := [.termF "annotatedBrand" "nike"] },
    suggest := none,
    sort := [⟨"_score", .desc⟩, ⟨"id", .asc⟩],
    aggs :=
      { brands := none, categorySlugs := some ⟨"categorySlugs"⟩, colorSwatch := none,
        priceMaxField := "priceMax", priceMinField := "priceMin" },
    searchAfter := none }

/-- Witness instantiating C1 on a concrete pinned brand. -/
theorem claim_C1_witness :
    compileListProducts oC1 [] = .ok reqC1 ∧
      (Clause.termF "annotatedBrand" "nike" ∈ queryFilterSection reqC1.query ∧
        reqC1.aggs.brands = none) :=
  ⟨by decide, (claim_C1_pin_vs_set_facets oC1 [] reqC1 (by decide)).1 "nike" rfl (by decide)⟩

/-! ## Structure of a successful projection -/

theorem projectListProducts_ok_fields (o : ListProductsOptions) (r : SearchResponse)
    (res : ListResult) (h : projectListProducts o r = .ok res) :
    computeNextToken o.size r.hits = .ok res.nextToken ∧
    res.items = r.hits.map (fun hit => hit.source) ∧
    res.totalValue = jsOrInt r.totalValue r.hits.length ∧
    res.isEstimate = decide (r.totalRelation ≠ some "eq") ∧
    projectSuggestBlock r.suggest = .ok res.suggestionProduct ∧
    res.filterableAttributes = projectAggs r.aggregations := by
  unfold projectListProducts at h
  cases hct : computeNextToken o.size r.hits with
  | error e => rw [hct] at h; simp at h
  | ok nt =>
    rw [hct] at h
    cases hsg : projectSuggestBlock r.suggest with
    | error e => rw [hsg] at h; simp at h
    | ok sp =>
      rw [hsg] at h
      simp only [Except.ok.injEq] at h
      subst h
      exact ⟨rfl, rfl, by simp, rfl, rfl, rfl⟩

theorem computeNextToken_not_full (size : Nat) (hits : List Hit)
    (h : hits.length ≠ size) : computeNextToken size hits = .ok none := by
  unfold computeNextToken
  cases hl : hits.getLast? with
  | none => rfl
  | some lastHit => simp [h]

theorem computeNextToken_full (size : Nat) (hits : List Hit) (lastHit : Hit)
    (t : List JPrim) (h1 : hits.length = size) (h2 : hits.getLast? = some lastHit)
    (h3 : lastHit.sort = some t) :
    computeNextToken size hits = .ok (some (cursorEncode t)) := by
  unfold computeNextToken
  rw [h2]
  simp [h1, h3]

theorem computeNextToken_missing_sort (size : Nat) (hits : List Hit) (lastHit : Hit)
    (h1 : hits.length = size) (h2 : hits.getLast? = some lastHit)
    (h3 : lastHit.sort = none) :
    computeNextToken size hits =
      .error (.kobp (.server "Sort is missing from query result!" none)) := by
  unfold computeNextToken
  rw [h2]
  simp [h1, h3]

/-- C2: on a successful `listProducts` projection a short page (fewer hits
than the requested size) carries no cursor; a full page's cursor is exactly
the encoding of the last hit's sort tuple (and decodes back to it); and a
full page whose last hit has no sort data makes `listProducts` fail with a
bad-gateway server error. -/
theorem claim_C2_next_token (o : ListProductsOptions) (r : SearchResponse)
    (hsz : 0 < o.size) :
    (∀ res, projectListProducts o r = .ok res → r.hits.length < o.size →
      res.nextToken = none) ∧
    (∀ res lastHit t, projectListProducts o r = .ok res → r.hits.length = o.size →
      r.hits.getLast? = some lastHit → lastHit.sort = some t →
      res.nextToken = some (cursorEncode t) ∧
        (wfTuple t = true → cursorDecode (cursorEncode t) = some t)) ∧
    (∀ slugs req lastHit, compileListProducts o slugs = .ok req →
      r.hits.length = o.size → r.hits.getLast? = some lastHit → lastHit.sort = none →
      listProducts o slugs (fun _ => .ok r) =
        .error (.server "ElasticSearch encountered an error"
          (some "Sort is missing from query result!"))) := by
  refine ⟨?_, ?_, ?_⟩
  · intro res hproj hshort
    have hct := (projectListProducts_ok_fields o r res hproj).1
    rw [computeNextToken_not_full o.size r.hits (by omega)] at hct
    simp at hct
    exact hct.symm
  · intro res lastHit t hproj hfull hlast hsort
    have hct := (projectListProducts_ok_fields o r res hproj).1
    rw [computeNextToken_full o.size r.hits lastHit t hfull hlast hsort] at hct
    simp at hct
    exact ⟨hct.symm, fun hwf => cursor_roundtrip t hwf⟩
  · intro slugs req lastHit hok hfull hlast hsort
    have hct := computeNextToken_missing_sort o.size r.hits lastHit hfull hlast hsort
    have hproj : projectListProducts o r =
        .error (.kobp (.server "Sort is missing from query result!" none)) := by
      unfold projectListProducts
      rw [hct]
    unfold listProducts
    rw [hok]
    simp [hproj, catchAll, thrownMessage]

/-- Concrete options for the C2 witness. -/
def oC2 : ListProductsOptions := { size := 1 }

/-- Concrete full-page response for the C2 witness. -/
def rC2 : SearchResponse := { hits := [{ source := "p1", sort := some [JPrim.jnum 7] }] }

/-- The result `rC2` projects to. -/
def resC2 : ListResult :=
  { items := ["p1"],
    nextToken := some (cursorEncode [JPrim.jnum 7]),
    totalValue := 1,
    isEstimate := true,
    filterableAttributes := projectAggs none,
    suggestionProduct := [] }

/-- Witness instantiating C2 on a concrete one-hit full page. -/
theorem claim_C2_witness :
    0 < oC2.size ∧ projectListProducts oC2 rC2 = .ok resC2 ∧
      resC2.nextToken = some (cursorEncode [JPrim.jnum 7]) :=
  ⟨by decide, by decide,
    ((claim_C2_next_token oC2 rC2 (by decide)).2.1 resC2 ⟨"p1", some [JPrim.jnum 7]⟩
      [JPrim.jnum 7] (by decide) (by decide) (by decide) (by decide)).1⟩

/-! ## C3: cursor codec -/

/-- Concrete options with a malformed cursor token. -/
def oC3 : ListProductsOptions := { size := 1, nextToken := some "!!!" }

/-- C3 counterexample: a malformed cursor token does NOT surface as a
client-input error — `listProducts` fails with the bad-gateway SERVER error
produced by the catch-all bracket, refuting the claimed InvalidCursor-style
client error class. -/
theorem claim_C3_counterexample :
    listProducts oC3 [] (fun _ => .ok {}) =
      .error (.server "ElasticSearch encountered an error"
        (some "Unexpected token in JSON")) := by decide

/-- C3 (amended): decoding the token produced by encoding any well-formed
sort tuple yields the original tuple; and a token whose decode fails makes
`listProducts` fail (no silent first-page fallback) with the bad-gateway
server error the catch-all produces from the JSON parse failure — not with
a client-input error. -/
theorem claim_C3_cursor_codec (t : List JPrim) (tok : String) (o : ListProductsOptions)
    (slugs : List String) (sn : List SortSpec) :
    (wfTuple t = true → cursorDecode (cursorEncode t) = some t) ∧
    (buildSortNode o = .ok sn → o.nextToken = some tok → tok ≠ "" →
      cursorDecode tok = none → ∀ engine, listProducts o slugs engine =
        .error (.server "ElasticSearch encountered an error"
          (some "Unexpected token in JSON"))) := by
  constructor
  · exact fun hwf => cursor_roundtrip t hwf
  · intro hs hnt hne hdec engine
    have hemp : tok.isEmpty = false := by
      cases hb : tok.isEmpty with
      | false => rfl
      | true => exact absurd ((String.isEmpty_iff tok).mp hb) hne
    have hdsa : decodeSearchAfter o.nextToken = .error (.js "Unexpected token in JSON") := by
      rw [hnt]
      simp [decodeSearchAfter, hemp, hdec]
    have hcomp : compileListProducts o slugs = .error (.js "Unexpected token in JSON") := by
      unfold compileListProducts
      rw [hs, hdsa]
    unfold listProducts
    rw [hcomp]
    simp [catchAll, thrownMessage]

/-- Witness instantiating the amended C3 on a concrete tuple and token. -/
theorem claim_C3_witness :
    cursorDecode (cursorEncode [JPrim.jnum 5, JPrim.jstr "ab"]) =
        some [JPrim.jnum 5, JPrim.jstr "ab"] ∧
      listProducts oC3 [] (fun _ => .ok {}) =
        .error (.server "ElasticSearch encountered an error"
          (some "Unexpected token in JSON")) :=
  ⟨(claim_C3_cursor_codec [JPrim.jnum 5, JPrim.jstr "ab"] "!!!" oC3 []
      [⟨"_score", .desc⟩, ⟨"id", .asc⟩]).1 (by decide),
    (claim_C3_cursor_codec [JPrim.jnum 5, JPrim.jstr "ab"] "!!!" oC3 []
      [⟨"_score", .desc⟩, ⟨"id", .asc⟩]).2 (by decide) rfl (by decide) (by decide)
      (fun _ => .ok {})⟩

/-! ## C4: price range -/

/-- Whether a clause is a range constraint. -/
def Clause.isRange : Clause → Bool
  | .rangeGte _ _ => true
  | .rangeLte _ _ => true
  | _ => false

theorem priceRange_mem_must (o : ListProductsOptions)
    (h : (truthyNum o.minPrice || truthyNum o.maxPrice) = true) :
    Clause.rangeGte "actualMinPrice" o.minPrice ∈ buildMust o ∧
      Clause.rangeLte "actualMinPrice" o.maxPrice ∈ buildMust o := by
  unfold buildMust
  rw [h]
  simp

theorem buildMust_no_range (o : ListProductsOptions)
    (hp : (truthyNum o.minPrice || truthyNum o.maxPrice) = false) :
    ∀ x ∈ buildMust o, x.isRange = false := by
  intro x hx
  unfold buildMust at hx
  rw [hp] at hx
  simp only [List.mem_append] at hx
  rcases hx with (hx | hx) | hx
  · cases hs : truthyList o.skus with
    | false => rw [hs] at hx; simp at hx
    | true => rw [hs] at hx; simp at hx; subst hx; rfl
  · cases hc : truthyList o.color with
    | false => rw [hc] at hx; simp at hx
    | true => rw [hc] at hx; simp at hx; subst hx; rfl
  · simp at hx

theorem queryMustSection_sub (o : ListProductsOptions) :
    ∀ x ∈ queryMustSection (buildQueryNode o), x ∈ buildMust o := by
  intro x hx
  cases hc : (buildShould o).isEmpty && (buildMust o).isEmpty && (buildFilters o).isEmpty with
  | true => simp [buildQueryNode, queryMustSection, hc] at hx
  | false =>
    simp [buildQueryNode, queryMustSection, hc] at hx
    exact hx

/-- C4 (amended): price bounds flow through the JavaScript truthiness guard
`options.minPrice || options.maxPrice`, so a bound equal to 0 counts as
absent.  When at least one bound is given and non-zero, the compiled `must`
section contains the two range clauses — `gte` carrying `minPrice`, `lte`
carrying `maxPrice`, an absent bound leaving its side valueless (unbounded);
when no non-zero bound is given (including `minPrice = 0` alone), the query
contains no range constraint at all. -/
theorem claim_C4_price_range (o : ListProductsOptions) (slugs : List String)
    (req : SearchRequest) (hok : compileListProducts o slugs = .ok req) :
    ((truthyNum o.minPrice || truthyNum o.maxPrice) = true →
      Clause.rangeGte "actualMinPrice" o.minPrice ∈ queryMustSection req.query ∧
        Clause.rangeLte "actualMinPrice" o.maxPrice ∈ queryMustSection req.query) ∧
    ((truthyNum o.minPrice || truthyNum o.maxPrice) = false →
      ∀ x ∈ queryMustSection req.query, x.isRange = false) := by
  obtain ⟨-, hq, -, -⟩ := compileListProducts_ok_fields o slugs req hok
  constructor
  · intro h
    obtain ⟨h1, h2⟩ := priceRange_mem_must o h
    rw [hq]
    exact ⟨mem_must_query o _ h1, mem_must_query o _ h2⟩
  · intro h x hx
    rw [hq] at hx
    exact buildMust_no_range o h x (queryMustSection_sub o x hx)

/-- Concrete options with a zero minimum price bound and no maximum. -/
def oC4 : ListProductsOptions := { size := 1, minPrice := some 0 }

/-- C4 counterexample: with `minPrice = 0` (a given numeric value the claim
says must yield a range constraint) and no other option, the compiled query
is the match-everything fallback and contains no range constraint at all. -/
theorem claim_C4_counterexample :
    (compileListProducts oC4 []).map (fun r => r.query) = .ok (.queryString "*") := by decide

/-- Concrete options with only a non-zero minimum price bound. -/
def oC4w : ListProductsOptions := { size := 1, minPrice := some 100 }

/-- The request `oC4w` compiles to. -/
def reqC4w : SearchRequest :=
  { size := 1,
    query := .boolQuery
      { should := [], minimumShouldMatch := none,
        must := [.rangeGte "actualMinPrice" (some 100), .rangeLte "actualMinPrice" none],
        filter := [] },
    suggest := none,
    sort := [⟨"_score", .desc⟩, ⟨"id", .asc⟩],
    aggs :=
      { brands := some ⟨"annotatedBrand"⟩, categorySlugs := some ⟨"categorySlugs"⟩,
        colorSwatch := none, priceMaxField := "priceMax", priceMinField := "priceMin" },
    searchAfter := none }

/-- Witness instantiating the amended C4 on a concrete lower bound. -/
theorem claim_C4_witness :
    compileListProducts oC4w [] = .ok reqC4w ∧
      (Clause.rangeGte "actualMinPrice" (some 100) ∈ queryMustSection reqC4w.query ∧
        Clause.rangeLte "actualMinPrice" none ∈ queryMustSection reqC4w.query) :=
  ⟨by decide, (claim_C4_price_range oC4w [] reqC4w (by decide)).1 (by decide)⟩

/-! ## C5: sort alias and error class -/

/-- Concrete options with an unrecognized sort token. -/
def oC5 : ListProductsOptions := { size := 1, sortBy := some "zzz" }

/-- Concrete options with a price-containing sort token. -/
def oC5p : ListProductsOptions := { size := 1, sortBy := some "-PRICE" }

/-- C5 evaluation: the alias half holds — a token containing "price" in any
letter case compiles to a sort directive on `actualMinPrice` — and the throw
site does build the bad-request client error naming the token; but the
surfaced error is NOT that client error: the operation's catch-all re-throws
it as the bad-gateway server error, the token surviving only in the
normalized detail. -/
theorem claim_C5_sort_alias :
    ((compileListProducts oC5p []).map (fun r => r.sort) =
      .ok [⟨"_score", .desc⟩, ⟨"actualMinPrice", .desc⟩, ⟨"id", .asc⟩]) ∧
    mapSortField "zzz" = .error (.kobp (.client "badRequest" "Unknown sort by option: zzz")) ∧
    listProducts oC5 [] (fun _ => .ok {}) =
      .error (.server "ElasticSearch encountered an error"
        (some "Unknown sort by option: zzz")) :=
  ⟨by decide, by decide, by decide⟩

/-! ## C6: totals -/

/-- C6: on a successful projection, `isEstimate` is true exactly when the
reported relation differs from `'eq'`; and under the engine consistency
invariant (a reported total bounds the returned hit count) the projected
total equals the reported value when present, else the returned item
count.  The consistency hypothesis is needed because the code reads the
value through `totals.value || items.length`, which would replace a
reported 0 by the hit count; an engine response reporting 0 returns no
hits, so the fallback coincides there. -/
theorem claim_C6_total (o : ListProductsOptions) (r : SearchResponse) (res : ListResult)
    (hproj : projectListProducts o r = .ok res)
    (hcons : ∀ v, r.totalValue = some v → (r.hits.length : Int) ≤ v) :
    (res.isEstimate = true ↔ r.totalRelation ≠ some "eq") ∧
    (∀ v, r.totalValue = some v → res.totalValue = v) ∧
    (r.totalValue = none → res.totalValue = r.hits.length) := by
  obtain ⟨-, -, htv, hest, -, -⟩ := projectListProducts_ok_fields o r res hproj
  refine ⟨?_, ?_, ?_⟩
  · rw [hest]
    simp
  · intro v hv
    rw [htv, hv]
    by_cases hz : v = 0
    · subst hz
      have hle := hcons 0 hv
      have hlen : r.hits.length = 0 := by omega
      simp [jsOrInt, hlen]
    · simp [jsOrInt, hz]
  · intro hv
    rw [htv, hv]
    simp [jsOrInt]

/-- Concrete options for the C6 witness. -/
def oC6 : ListProductsOptions := { size := 5 }

/-- Concrete response reporting an exact total of 3 over one returned hit. -/
def rC6 : SearchResponse :=
  { hits := [{ source := "a" }], totalValue := some 3, totalRelation := some "eq" }

/-- The result `rC6` projects to. -/
def resC6 : ListResult :=
  { items := ["a"], nextToken := none, totalValue := 3, isEstimate := false,
    filterableAttributes := projectAggs none, suggestionProduct := [] }

/-- Witness instantiating C6 on a concrete reported total. -/
theorem claim_C6_witness :
    projectListProducts oC6 rC6 = .ok resC6 ∧ resC6.totalValue = 3 :=
  ⟨by decide,
    (claim_C6_total oC6 rC6 resC6 (by decide)
      (by
        intro v hv
        rw [show rC6.totalValue = some 3 from rfl] at hv
        cases hv
        decide)).2.1 3 rfl⟩

/-! ## C7: suggestion projection -/

/-- C7: on a successful projection, an absent suggestion block yields an
empty list; a non-empty first English channel entry wins; an empty English
entry falls back to the first Thai channel entry (so two empty entries
yield an empty list, not an error).  Each channel is read through its first
entry, which the engine supplies for every requested suggester. -/
theorem claim_C7_suggestions (o : ListProductsOptions) (r : SearchResponse) (res : ListResult)
    (hproj : projectListProducts o r = .ok res) :
    (r.suggest = none → res.suggestionProduct = []) ∧
    (∀ sg en0, r.suggest = some sg → sg.suggestionEn.head? = some en0 → en0 ≠ [] →
      res.suggestionProduct = en0.map (fun s => s.titleEn)) ∧
    (∀ sg en0 th0, r.suggest = some sg → sg.suggestionEn.head? = some en0 → en0 = [] →
      sg.suggestionTh.head? = some th0 →
      res.suggestionProduct = th0.map (fun s => s.titleTh)) := by
  obtain ⟨-, -, -, -, hsg, -⟩ := projectListProducts_ok_fields o r res hproj
  refine ⟨?_, ?_, ?_⟩
  · intro h
    rw [h] at hsg
    simp [projectSuggestBlock] at hsg
    exact hsg
  · intro sg en0 h1 h2 h3
    rw [h1] at hsg
    simp only [projectSuggestBlock] at hsg
    unfold projectSuggestions at hsg
    rw [h2] at hsg
    have hlen : en0.length ≠ 0 := by
      simpa [List.length_eq_zero] using h3
    simp [hlen] at hsg
    exact hsg.symm
  · intro sg en0 th0 h1 h2 h3 h4
    rw [h1] at hsg
    simp only [projectSuggestBlock] at hsg
    unfold projectSuggestions at hsg
    rw [h2] at hsg
    subst h3
    simp [h4] at hsg
    exact hsg.symm

/-- Concrete options for the C7 witness. -/
def oC7 : ListProductsOptions := { size := 2 }

/-- Concrete response with a non-empty English suggestion channel. -/
def rC7 : SearchResponse :=
  { suggest := some { suggestionEn := [[{ titleEn := "Shoe", titleTh := "T" }]],
                      suggestionTh := [[]] } }

/-- The result `rC7` projects to. -/
def resC7 : ListResult :=
  { items := [], nextToken := none, totalValue := 0, isEstimate := true,
    filterableAttributes := projectAggs none, suggestionProduct := ["Shoe"] }

/-- Witness instantiating C7 on a concrete English-channel win. -/
theorem claim_C7_witness :
    projectListProducts oC7 rC7 = .ok resC7 ∧ resC7.suggestionProduct = ["Shoe"] :=
  ⟨by decide,
    (claim_C7_suggestions oC7 rC7 resC7 (by decide)).2.1
      { suggestionEn := [[{ titleEn := "Shoe", titleTh := "T" }]], suggestionTh := [[]] }
      [{ titleEn := "Shoe", titleTh := "T" }] rfl rfl (by decide)⟩

/-! ## C8: colour-swatch facet projection -/

/-- C8: a bucket key splitting into exactly three `__`-separated parts
projects to the (code, bilingual label) triple; a key without the
delimiters projects totally (no error) with absent (`undefined`) label
fields; and on a successful projection the colour facet list is precisely
the bucket-wise image of this projection. -/
theorem claim_C8_color_swatch (key a b c : String) (o : ListProductsOptions)
    (r : SearchResponse) (res : ListResult) (ag : AggResult)
    (hproj : projectListProducts o r = .ok res) (hag : r.aggregations = some ag) :
    (jsSplit key "__" = [a, b, c] →
      projectColorBucket key = { code := some a, labelEn := some b, labelTh := some c }) ∧
    ((jsSplit key "__").length ≤ 1 →
      (projectColorBucket key).labelEn = none ∧ (projectColorBucket key).labelTh = none) ∧
    res.filterableAttributes.colorSwatch =
      (ag.colorSwatch.getD []).map (fun bk => projectColorBucket bk.key) := by
  obtain ⟨-, -, -, -, -, hfa⟩ := projectListProducts_ok_fields o r res hproj
  refine ⟨?_, ?_, ?_⟩
  · intro h
    simp [projectColorBucket, h]
  · intro h
    constructor
    · simp only [projectColorBucket]
      exact List.get?_eq_none.mpr (by omega)
    · simp only [projectColorBucket]
      exact List.get?_eq_none.mpr (by omega)
  · rw [hfa, hag]
    simp [projectAggs]

/-- Concrete options for the C8 witness. -/
def oC8 : ListProductsOptions := { size := 3 }

/-- Concrete aggregation section with one colour-swatch bucket. -/
def agC8 : AggResult :=
  { colorSwatch := some [{ key := "red__Red__แดง", docCount := 4 }], priceMin := 1, priceMax := 9 }

/-- Concrete response carrying `agC8`. -/
def rC8 : SearchResponse := { aggregations := some agC8 }

/-- The result `rC8` projects to. -/
def resC8 : ListResult :=
  { items := [], nextToken := none, totalValue := 0, isEstimate := true,
    filterableAttributes := projectAggs (some agC8), suggestionProduct := [] }

/-- Witness instantiating C8 on the bilingual example key. -/
theorem claim_C8_witness :
    jsSplit "red__Red__แดง" "__" = ["red", "Red", "แดง"] ∧
      projectColorBucket "red__Red__แดง" =
        { code := some "red", labelEn := some "Red", labelTh := some "แดง" } ∧
      projectListProducts oC8 rC8 = .ok resC8 :=
  ⟨by decide,
    (claim_C8_color_swatch "red__Red__แดง" "red" "Red" "แดง" oC8 rC8 resC8 agC8
      (by decide) rfl).1 (by decide),
    by decide⟩

/-! ## C9: term tracker error policy -/

/-- C9: the searched-keyword tracker resolves normally whatever the engine
outcome (failures are logged and swallowed) and its write carries the fixed
conflict-retry budget of 3; the boosted-keyword update propagates an engine
failure as the bad-gateway server error. -/
theorem claim_C9_tracker_error_policy (scope : ScopeOption) (typed keyword : String)
    (score : Int) :
    (buildTrackRequest scope typed).retryOnConflict = 3 ∧
    (∀ engine, trackUserSearchedKeywords scope typed engine = .ok ()) ∧
    (∀ msg, updateDomainBoostedKeywords scope keyword score (fun _ => .error msg) =
      .error (.server "ElasticSearch encountered an error" (some msg))) := by
  refine ⟨rfl, ?_, ?_⟩
  · intro engine
    unfold trackUserSearchedKeywords
    cases engine (buildTrackRequest scope typed) <;> rfl
  · intro msg
    rfl

/-! ## C10: `listBrands` page-size mismatch -/

theorem projectListBrands_ok_nextToken (o : ListProductsOptions) (r : BrandsResponse)
    (res : BrandsResult) (h : projectListBrands o r = .ok res) :
    computeNextToken o.size r.hits = .ok res.nextToken := by
  unfold projectListBrands at h
  cases hct : computeNextToken o.size r.hits with
  | error e => rw [hct] at h; simp at h
  | ok nt =>
    rw [hct] at h
    cases hsg : projectBrandsSuggestBlock r.suggest with
    | error e => rw [hsg] at h; simp at h
    | ok sp =>
      rw [hsg] at h
      simp only [Except.ok.injEq] at h
      subst h
      rfl

/-- C10: the brands request always asks the engine for a fixed page of 24
regardless of the caller's options, while the cursor condition compares the
hit count to the caller-supplied `options.size`; hence for `options.size`
different from 24 a full engine page of 24 yields no cursor, and a short
page whose length happens to equal `options.size` yields one. -/
theorem claim_C10_brands_size_mismatch (o : ListProductsOptions) (r : BrandsResponse) :
    (∀ req, compileListBrands o = .ok req → req.size = 24) ∧
    (∀ res, projectListBrands o r = .ok res → r.hits.length = 24 → o.size ≠ 24 →
      res.nextToken = none) ∧
    (∀ res lastHit t, projectListBrands o r = .ok res → r.hits.length = o.size →
      r.hits.getLast? = some lastHit → lastHit.sort = some t →
      res.nextToken = some (cursorEncode t)) := by
  refine ⟨?_, ?_, ?_⟩
  · intro req hok
    unfold compileListBrands at hok
    cases hc : decodeSearchAfter o.nextToken with
    | error e => rw [hc] at hok; simp at hok
    | ok sa =>
      rw [hc] at hok
      simp only [Except.ok.injEq] at hok
      subst hok
      rfl
  · intro res hproj hlen hne
    have hct := projectListBrands_ok_nextToken o r res hproj
    rw [computeNextToken_not_full o.size r.hits (by omega)] at hct
    simp at hct
    exact hct.symm
  · intro res lastHit t hproj hlen hlast hsort
    have hct := projectListBrands_ok_nextToken o r res hproj
    rw [computeNextToken_full o.size r.hits lastHit t hlen hlast hsort] at hct
    simp at hct
    exact hct.symm

/-- Concrete options with a page size different from 24. -/
def oC10 : ListProductsOptions := { size := 2 }

/-- The brands request `oC10` compiles to: size fixed at 24. -/
def reqC10 : BrandsRequest :=
  { size := 24, query := .matchAll, suggest := none,
    sort := [⟨"_score", .desc⟩, ⟨"id", .asc⟩], searchAfter := none }

/-- A full engine page: 24 brand hits. -/
def rC10full : BrandsResponse :=
  { hits := List.replicate 24 { source := "b", sort := some [JPrim.jnum 1] } }

/-- The result the full page projects to under `oC10`: no cursor. -/
def resC10full : BrandsResult :=
  { items := List.replicate 24 "b", nextToken := none, totalValue := 24,
    isEstimate := true, suggestionIds := [] }

/-- A short page whose length equals the caller's size. -/
def rC10short : BrandsResponse :=
  { hits := [{ source := "b1", sort := some [JPrim.jnum 3] },
             { source := "b2", sort := some [JPrim.jnum 9] }] }

/-- The result the short page projects to under `oC10`: a cursor appears. -/
def resC10short : BrandsResult :=
  { items := ["b1", "b2"], nextToken := some (cursorEncode [JPrim.jnum 9]), totalValue := 2,
    isEstimate := true, suggestionIds := [] }

/-- Witness instantiating C10: fixed request size 24, a 24-hit page without
a cursor, and a 2-hit page carrying one. -/
theorem claim_C10_witness :
    compileListBrands oC10 = .ok reqC10 ∧ reqC10.size = 24 ∧
      projectListBrands oC10 rC10full = .ok resC10full ∧ resC10full.nextToken = none ∧
      projectListBrands oC10 rC10short = .ok resC10short ∧
      resC10short.nextToken = some (cursorEncode [JPrim.jnum 9]) :=
  ⟨by decide,
    (claim_C10_brands_size_mismatch oC10 rC10full).1 reqC10 (by decide),
    by decide,
    (claim_C10_brands_size_mismatch oC10 rC10full).2.1 resC10full (by decide) (by decide)
      (by decide),
    by decide,
    (claim_C10_brands_size_mismatch oC10 rC10short).2.2 resC10short
      ⟨"b2", some [JPrim.jnum 9]⟩ [JPrim.jnum 9] (by decide) (by decide) (by decide)
      (by decide)⟩
